import Mathlib

/-!
Verification of the localsets repository's local data cache and lookup engine.

Python strings are modelled as lists of Unicode code points (`PyStr`), so that
the behaviour of Python's Unicode-aware `str.lower` and `str.isalnum` can be
embedded exactly.  The character-level primitives `pyLowerChar` and
`pyIsAlnumChar` reproduce CPython's behaviour exactly on the Latin-1 range
(code points 0x00-0xFF); code points above 0xFF are treated as case-fixed and
non-alphanumeric, which is the declared scope of the model.  All data the
repository actually handles (format identifiers, creature names) is ASCII or
Latin-1.

Datasets (Python dicts) are modelled as insertion-ordered association lists.
-/

/-- A Python string: a finite sequence of Unicode code points. -/
abbrev PyStr := List Nat

/-- Helper for writing ASCII `PyStr` literals in statements. -/
def ascii (s : String) : PyStr := s.data.map Char.toNat

/-- CPython `str.lower`, per code point, on the Latin-1 range: ASCII capitals
map down by 0x20, and the Latin-1 capitals 0xC0-0xDE except the multiplication
sign 0xD7 map down by 0x20; everything else is fixed. -/
def pyLowerChar (n : Nat) : Nat :=
  if 0x41 ≤ n ∧ n ≤ 0x5A then n + 0x20
  else if 0xC0 ≤ n ∧ n ≤ 0xDE ∧ n ≠ 0xD7 then n + 0x20
  else n

/-- CPython `str.isalnum`, per code point, on the Latin-1 range: ASCII digits
and letters, the ordinal indicators 0xAA and 0xBA, micro sign 0xB5, the
superscripts 0xB2, 0xB3, 0xB9, the vulgar fractions 0xBC-0xBE, and the Latin-1
letters 0xC0-0xFF except the multiplication sign 0xD7 and division sign 0xF7.
Note this accepts non-ASCII alphanumerics, exactly as CPython does. -/
def pyIsAlnumChar (n : Nat) : Bool :=
  decide ((0x30 ≤ n ∧ n ≤ 0x39) ∨ (0x41 ≤ n ∧ n ≤ 0x5A) ∨ (0x61 ≤ n ∧ n ≤ 0x7A) ∨
    n = 0xAA ∨ n = 0xB2 ∨ n = 0xB3 ∨ n = 0xB5 ∨ n = 0xB9 ∨ n = 0xBA ∨
    (0xBC ≤ n ∧ n ≤ 0xBE) ∨ (0xC0 ≤ n ∧ n ≤ 0xFF ∧ n ≠ 0xD7 ∧ n ≠ 0xF7))

/-- Python `name.lower()` over a whole string. -/
def pyLower (s : PyStr) : PyStr := s.map pyLowerChar

/-- `RandBatsData._normalize_name` from `pokemon_randbats/core.py`:
the join of every character of `name.lower()` that satisfies `c.isalnum()`. -/
def normalize_name (s : PyStr) : PyStr := (pyLower s).filter pyIsAlnumChar

/-- Written from the spec's words for the normalizer: lower-case the input and
strip every character that is not an ASCII letter or ASCII digit. -/
def normalize_spec_ascii (s : PyStr) : PyStr :=
  (pyLower s).filter (fun n =>
    decide ((0x30 ≤ n ∧ n ≤ 0x39) ∨ (0x41 ≤ n ∧ n ≤ 0x5A) ∨ (0x61 ≤ n ∧ n ≤ 0x7A)))

/-- Written from the amended spec wording: lower-case the input and strip every
character that is not alphanumeric in Python's Unicode sense. Stated as a
direct recursion, independently of the map-then-filter shape of the source. -/
def normalize_spec_unicode : PyStr → PyStr
  | [] => []
  | c :: cs =>
    if pyIsAlnumChar (pyLowerChar c) then
      pyLowerChar c :: normalize_spec_unicode cs
    else
      normalize_spec_unicode cs

lemma pyLowerChar_idem (n : Nat) : pyLowerChar (pyLowerChar n) = pyLowerChar n := by
  simp only [pyLowerChar]
  split_ifs <;> omega

lemma pyIsAlnumChar_pyLowerChar (n : Nat) :
    pyIsAlnumChar (pyLowerChar n) = pyIsAlnumChar n := by
  simp only [pyIsAlnumChar, pyLowerChar]
  split_ifs <;> rw [decide_eq_decide] <;> omega

/-- C3 counterexample input: the code point 0xE9 is the Latin-1 letter which
CPython's `isalnum` accepts, so `_normalize_name` keeps it, while the spec's
ASCII-only normalizer removes it. -/
theorem normalize_name_not_ascii_spec :
    normalize_name [0xE9] = [0xE9] ∧ normalize_spec_ascii [0xE9] = [] ∧
      normalize_name [0xE9] ≠ normalize_spec_ascii [0xE9] := by
  refine ⟨by decide, by decide, by decide⟩

/-- C3 (amended): `_normalize_name` is a deterministic total function equal to
the Unicode-alphanumeric normalizer: it returns the input lower-cased with
every character that is not alphanumeric (in Python's Unicode sense, which
accepts non-ASCII letters such as code point 0xE9) removed; it never errors. -/
theorem normalize_name_eq_unicode_spec (s : PyStr) :
    normalize_name s = normalize_spec_unicode s := by
  induction s with
  | nil => rfl
  | cons c cs ih =>
    simp only [normalize_name, pyLower, List.map_cons, List.filter_cons,
      normalize_spec_unicode] at *
    by_cases h : pyIsAlnumChar (pyLowerChar c) <;> simp [h, ih]

/-- C8: `_normalize_name` is idempotent on every input, and it is
case/punctuation-insensitive on the spec's example: both spellings of the
Mr. Mime name normalize to the same key. -/
theorem normalize_name_idem :
    (∀ s : PyStr, normalize_name (normalize_name s) = normalize_name s) ∧
      normalize_name (ascii "Mr. Mime") = ascii "mrmime" ∧
      normalize_name (ascii "mrmime") = ascii "mrmime" := by
  refine ⟨fun s => ?_, by decide, by decide⟩
  induction s with
  | nil => rfl
  | cons c cs ih =>
    simp only [normalize_name, pyLower, List.map_cons, List.filter_cons] at *
    by_cases h : pyIsAlnumChar (pyLowerChar c)
    · simp only [h, if_true, List.map_cons, List.filter_cons, pyLowerChar_idem,
        pyIsAlnumChar_pyLowerChar, h, ih]
    · simp [h, ih]

/-! ## The in-memory cache: `RandBatsData` from `pokemon_randbats/core.py` -/

/-- A dataset (a parsed per-format JSON object): an insertion-ordered
association list from creature key to record.  Records are opaque to the
lookup engine, hence the type parameter. -/
abbrev Dataset (ρ : Type) := List (PyStr × ρ)

/-- Lookup in a Python dict modelled as an association list: the value of the
first binding whose key equals `k`. -/
def lookupAssoc {α β : Type} [DecidableEq α] (l : List (α × β)) (k : α) : Option β :=
  (l.find? (fun kv => decide (kv.1 = k))).map (fun kv => kv.2)

/-- The mutable state of a `RandBatsData` instance: the configured formats
(`self.formats`), the materialized per-format datasets (`self._data`), and the
loaded-format set (`self._loaded_formats`, a Python set, modelled as a list in
its iteration order). -/
structure RandBatsState (ρ : Type) where
  formats : List String
  data : List (String × Dataset ρ)
  loadedFormats : List String

/-- The body of `get_pokemon` once a format's dataset is in hand and the query
is normalized: exact-key lookup first, else a linear scan over the keys in
order, comparing the normalization of each stored key to the normalized query,
first match winning. -/
def searchDataset {ρ : Type} (fd : Dataset ρ) (q : PyStr) : Option ρ :=
  match lookupAssoc fd q with
  | some r => some r
  | none => (fd.find? (fun kv => decide (normalize_name kv.1 = q))).map (fun kv => kv.2)

/-- `RandBatsData.get_pokemon` with an explicit format argument: absent format
yields `none`; otherwise search the format's dataset for the normalized name. -/
def getPokemonFmt {ρ : Type} (st : RandBatsState ρ) (name : PyStr) (fmt : String) :
    Option ρ :=
  match lookupAssoc st.data fmt with
  | none => none
  | some fd => searchDataset fd (normalize_name name)

/-- The fixed preference order tried by `RandBatsData._detect_format`. -/
def recentFormats : List String :=
  ["gen9randombattle", "gen8randombattle", "gen7randombattle"]

/-- `RandBatsData._detect_format`: try the recent formats in order, returning
the first that is present in `_data` and whose lookup result is truthy (Python
truthiness of the record dict, supplied as the `truthy` parameter); otherwise
fall back to the first loaded format in iteration order, or the literal
default format id when no format is loaded. -/
def detectFormat {ρ : Type} (truthy : ρ → Bool) (st : RandBatsState ρ)
    (name : PyStr) : String :=
  match recentFormats.find? (fun f =>
      (lookupAssoc st.data f).isSome &&
        (((getPokemonFmt st name f).map truthy).getD false)) with
  | some f => f
  | none => st.loadedFormats.headD "gen9randombattle"

/-- `RandBatsData.get_pokemon`: when the format argument is omitted (Python
`None`), auto-detect the format first; then do the format-scoped search. -/
def get_pokemon {ρ : Type} (truthy : ρ → Bool) (st : RandBatsState ρ)
    (name : PyStr) (fmt : Option String) : Option ρ :=
  getPokemonFmt st name (fmt.getD (detectFormat truthy st name))

/-- `RandBatsData.list_pokemon`: the keys of the format's dataset in their
native order, or the empty list when the format is not in `_data`. -/
def list_pokemon {ρ : Type} (st : RandBatsState ρ) (fmt : String) : List PyStr :=
  match lookupAssoc st.data fmt with
  | none => []
  | some fd => fd.map (fun kv => kv.1)

lemma lookupAssoc_eq_of_mem_nodup {α β : Type} [DecidableEq α]
    {l : List (α × β)} {k : α} {v : β}
    (hmem : (k, v) ∈ l) (hnodup : (l.map (fun kv => kv.1)).Nodup) :
    lookupAssoc l k = some v := by
  induction l with
  | nil => cases hmem
  | cons hd tl ih =>
    simp only [List.map_cons, List.nodup_cons] at hnodup
    rcases List.mem_cons.mp hmem with heq | htl
    · subst heq
      simp [lookupAssoc, List.find?]
    · by_cases hk : hd.1 = k
      · exact absurd (hk ▸ List.mem_map_of_mem (fun kv => kv.1) htl) hnodup.1
      · simpa [lookupAssoc, List.find?, hk] using ih htl hnodup.2

lemma mem_of_lookupAssoc {α β : Type} [DecidableEq α]
    {l : List (α × β)} {k : α} {v : β} (h : lookupAssoc l k = some v) :
    (k, v) ∈ l := by
  simp only [lookupAssoc, Option.map_eq_some'] at h
  obtain ⟨kv, hfind, hv⟩ := h
  have hmem := List.mem_of_find?_eq_some hfind
  have hpred := List.find?_some hfind
  simp only [decide_eq_true_eq] at hpred
  cases kv
  simp_all

/-! ## The format registry: `pokemon_randbats/formats.py` -/

/-- The hand-curated `FORMATS` catalog. -/
def FORMATS : List String :=
  ["gen1randombattle",
   "gen2randombattle",
   "gen3randombattle",
   "gen4randombattle",
   "gen5randombattle",
   "gen6randombattle",
   "gen7letsgorandombattle",
   "gen7randombattle",
   "gen8bdsprandombattle",
   "gen8randombattle",
   "gen8randomdoublesbattle",
   "gen9babyrandombattle",
   "gen9randombattle",
   "gen9randomdoublesbattle"]

/-- The `FORMAT_MAPPINGS` alias table. -/
def FORMAT_MAPPINGS : List (String × List String) :=
  [("gen1", ["gen1randombattle"]),
   ("gen2", ["gen2randombattle"]),
   ("gen3", ["gen3randombattle"]),
   ("gen4", ["gen4randombattle"]),
   ("gen5", ["gen5randombattle"]),
   ("gen6", ["gen6randombattle"]),
   ("gen7", ["gen7randombattle"]),
   ("gen8", ["gen8randombattle"]),
   ("gen9", ["gen9randombattle"]),
   ("classic", ["gen1randombattle", "gen2randombattle", "gen3randombattle", "gen4randombattle"]),
   ("modern", ["gen8randombattle", "gen9randombattle"]),
   ("doubles", ["gen8randomdoublesbattle", "gen9randomdoublesbattle"]),
   ("letsgo", ["gen7letsgorandombattle"]),
   ("bdsp", ["gen8bdsprandombattle"]),
   ("baby", ["gen9babyrandombattle"]),
   ("all", FORMATS)]

/-! ## Lookup claims -/

/-- C2: for every loaded format and every canonical key `k` in its dataset
(with dict keys unique, as Python dicts guarantee), `get_pokemon` returns
exactly the record stored under `k` for any name whose normalization is `k`. -/
theorem get_pokemon_lookup_consistency {ρ : Type} (truthy : ρ → Bool)
    (st : RandBatsState ρ) (fmt : String) (fd : Dataset ρ) (k : PyStr) (v : ρ)
    (n : PyStr)
    (hfmt : lookupAssoc st.data fmt = some fd)
    (hnodup : (fd.map (fun kv => kv.1)).Nodup)
    (hk : (k, v) ∈ fd)
    (_hcanon : normalize_name k = k)
    (hn : normalize_name n = k) :
    get_pokemon truthy st n (some fmt) = some v := by
  simp only [get_pokemon, Option.getD_some, getPokemonFmt, hfmt]
  simp only [searchDataset, hn, lookupAssoc_eq_of_mem_nodup hk hnodup]

/-- C2 witness: a concrete loaded dataset where the query name is a display
spelling of the stored canonical key. -/
theorem get_pokemon_lookup_consistency_witness :
    get_pokemon (fun _ => true)
      (RandBatsState.mk ["gen9randombattle"]
        [("gen9randombattle", [(ascii "mrmime", 7), (ascii "pikachu", 3)])]
        ["gen9randombattle"])
      (ascii "Mr. Mime") (some "gen9randombattle") = some 7 :=
  get_pokemon_lookup_consistency (fun _ => true) _ "gen9randombattle"
    [(ascii "mrmime", 7), (ascii "pikachu", 3)] (ascii "mrmime") 7
    (ascii "Mr. Mime") (by decide) (by decide) (by decide) (by decide) (by decide)

/-- C7 counterexample: the query boundary checks membership in the loaded data
map (`self._data`), not membership in the closed `FORMATS` registry.  A state
whose data map holds a token outside the registry (reachable, because the
constructor accepts an arbitrary format list and loads whatever the cache
holds for it) answers the query with data instead of rejecting the token. -/
theorem get_pokemon_nonregistry_format_served :
    "notaformat" ∉ FORMATS ∧
      get_pokemon (fun _ => true)
        (RandBatsState.mk ["notaformat"]
          [("notaformat", [(ascii "pikachu", 3)])] ["notaformat"])
        (ascii "pikachu") (some "notaformat") = some 3 := by
  refine ⟨by decide, by decide⟩

/-- C7 (amended): for every format token not present in the loaded data map,
a query returns a clean absence — `get_pokemon` yields `none` and
`list_pokemon` yields the empty list — independently of every other format's
data (the token is not retried and not mapped to another format). -/
theorem unknown_format_rejected {ρ : Type} (truthy : ρ → Bool)
    (st : RandBatsState ρ) (n : PyStr) (fmt : String)
    (h : lookupAssoc st.data fmt = none) :
    get_pokemon truthy st n (some fmt) = none ∧ list_pokemon st fmt = [] := by
  constructor
  · simp only [get_pokemon, Option.getD_some, getPokemonFmt, h]
  · simp only [list_pokemon, h]

/-- C7 witness: the default registry token queried against a state that has
loaded nothing. -/
theorem unknown_format_rejected_witness :
    get_pokemon (fun _ => true)
        (RandBatsState.mk ([] : List String) ([] : List (String × Dataset Nat)) [])
        (ascii "pikachu") (some "gen9randombattle") = none ∧
      list_pokemon (RandBatsState.mk ([] : List String) ([] : List (String × Dataset Nat)) [])
        "gen9randombattle" = [] :=
  unknown_format_rejected (fun _ => true)
    (RandBatsState.mk ([] : List String) ([] : List (String × Dataset Nat)) [])
    (ascii "pikachu") "gen9randombattle" (by decide)

/-- C10: `get_pokemon` with the format omitted is total and returns absence
whenever no loaded format's dataset matches the name (neither exactly nor by
normalized comparison); and with zero formats loaded, auto-detection falls
back to the fixed default format id, which is then not in the data map, so the
result is `none`. -/
theorem get_pokemon_no_format_absent {ρ : Type} (truthy : ρ → Bool)
    (st : RandBatsState ρ) (n : PyStr)
    (h : ∀ p ∈ st.data, searchDataset p.2 (normalize_name n) = none) :
    get_pokemon truthy st n none = none ∧
      (st.data = [] → st.loadedFormats = [] →
        detectFormat truthy st n = "gen9randombattle") := by
  constructor
  · simp only [get_pokemon, Option.getD_none, getPokemonFmt]
    cases hl : lookupAssoc st.data (detectFormat truthy st n) with
    | none => rfl
    | some fd =>
      exact h (detectFormat truthy st n, fd) (mem_of_lookupAssoc hl)
  · intro hdata hloaded
    simp [detectFormat, recentFormats, hdata, hloaded, List.find?, lookupAssoc]

/-- C10 witness: the empty cache state, where auto-detection lands on the
default format id and the lookup returns a clean absence. -/
theorem get_pokemon_no_format_absent_witness :
    get_pokemon (fun _ => true)
        (RandBatsState.mk ([] : List String) ([] : List (String × Dataset Nat)) [])
        (ascii "pikachu") none = none ∧
      detectFormat (fun _ => true)
        (RandBatsState.mk ([] : List String) ([] : List (String × Dataset Nat)) [])
        (ascii "pikachu") = "gen9randombattle" := by
  have h := get_pokemon_no_format_absent (fun (_ : Nat) => true)
    (RandBatsState.mk [] [] []) (ascii "pikachu") (by intro p hp; cases hp)
  exact ⟨h.1, h.2 rfl rfl⟩

/-- One iteration of the loop in `resolve_formats`: aliases are checked first
and expanded, then literal format ids are passed through, and unknown tokens
are skipped. -/
def resolveStep (acc : List String) (fmt : String) : List String :=
  match lookupAssoc FORMAT_MAPPINGS fmt with
  | some expansion => acc ++ expansion
  | none => if fmt ∈ FORMATS then acc ++ [fmt] else acc

/-- The `resolved` accumulator of `resolve_formats` just before the final
`list(set(resolved))`. -/
def resolve_formats_list (formats : List String) : List String :=
  formats.foldl resolveStep []

/-- `resolve_formats` from `pokemon_randbats/formats.py`.  The final
`list(set(resolved))` deduplicates and forgets order (CPython set iteration
order is unspecified), so the result is modelled as a finite set. -/
def resolve_formats (formats : List String) : Finset String :=
  (resolve_formats_list formats).toFinset

/-- Written from the spec's words: the contribution of a single token — a
literal format id passes through, a known alias expands to its format set, an
unknown token is dropped. -/
def tokenExpansionSpec (fmt : String) : Finset String :=
  if fmt ∈ FORMATS then {fmt}
  else
    match lookupAssoc FORMAT_MAPPINGS fmt with
    | some expansion => expansion.toFinset
    | none => ∅

/-- The per-token payload of `resolveStep`, for reasoning about the fold. -/
def resolveToken (fmt : String) : List String :=
  match lookupAssoc FORMAT_MAPPINGS fmt with
  | some expansion => expansion
  | none => if fmt ∈ FORMATS then [fmt] else []

lemma resolveStep_eq (acc : List String) (fmt : String) :
    resolveStep acc fmt = acc ++ resolveToken fmt := by
  unfold resolveStep resolveToken
  cases lookupAssoc FORMAT_MAPPINGS fmt with
  | some expansion => rfl
  | none => by_cases h : fmt ∈ FORMATS <;> simp [h]

lemma resolve_foldl (l : List String) (acc : List String) :
    l.foldl resolveStep acc = acc ++ l.flatMap resolveToken := by
  induction l generalizing acc with
  | nil => simp
  | cons f t ih =>
    simp only [List.foldl_cons, List.flatMap_cons, ih, resolveStep_eq,
      List.append_assoc]

/-- No literal format id is also an alias key: the two tables are disjoint. -/
lemma formats_not_alias : ∀ f ∈ FORMATS, lookupAssoc FORMAT_MAPPINGS f = none := by
  decide

lemma resolveToken_toFinset (fmt : String) :
    (resolveToken fmt).toFinset = tokenExpansionSpec fmt := by
  unfold resolveToken tokenExpansionSpec
  by_cases h : fmt ∈ FORMATS
  · rw [formats_not_alias fmt h]
    simp [h]
  · cases hl : lookupAssoc FORMAT_MAPPINGS fmt with
    | some expansion => simp [h]
    | none => simp [h]

lemma mem_resolve_formats (l : List String) (a : String) :
    a ∈ resolve_formats l ↔ ∃ f ∈ l, a ∈ tokenExpansionSpec f := by
  unfold resolve_formats resolve_formats_list
  rw [resolve_foldl]
  simp only [List.nil_append, List.mem_toFinset, List.mem_flatMap]
  constructor
  · rintro ⟨f, hf, ha⟩
    exact ⟨f, hf, by rw [← resolveToken_toFinset]; simpa using ha⟩
  · rintro ⟨f, hf, ha⟩
    exact ⟨f, hf, by rw [← resolveToken_toFinset] at ha; simpa using ha⟩

/-- C9: alias resolution returns, as a duplicate-free set (a `Finset`, whose
order is unspecified), exactly the union over the input tokens of each token's
expansion — literal format ids pass through, known aliases expand, unknown
tokens are silently dropped — and the result depends only on the input up to
permutation. -/
theorem resolve_formats_set_spec :
    (∀ (l : List String) (a : String),
        a ∈ resolve_formats l ↔ ∃ f ∈ l, a ∈ tokenExpansionSpec f) ∧
      ∀ (l₁ l₂ : List String), l₁.Perm l₂ → resolve_formats l₁ = resolve_formats l₂ := by
  refine ⟨mem_resolve_formats, fun l₁ l₂ hperm => ?_⟩
  ext a
  rw [mem_resolve_formats, mem_resolve_formats]
  constructor
  · rintro ⟨f, hf, ha⟩
    exact ⟨f, hperm.mem_iff.mp hf, ha⟩
  · rintro ⟨f, hf, ha⟩
    exact ⟨f, hperm.mem_iff.mpr hf, ha⟩

/-- C9 witness: a mixed token list with an alias, a literal and an unknown
token, and a transposed variant of it. -/
theorem resolve_formats_set_spec_witness :
    ("gen1randombattle" ∈ resolve_formats ["classic", "gen9randombattle", "bogus"] ↔
        ∃ f ∈ ["classic", "gen9randombattle", "bogus"],
          "gen1randombattle" ∈ tokenExpansionSpec f) ∧
      resolve_formats ["classic", "gen9randombattle", "bogus"] =
        resolve_formats ["gen9randombattle", "classic", "bogus"] :=
  ⟨resolve_formats_set_spec.1 ["classic", "gen9randombattle", "bogus"] "gen1randombattle",
   resolve_formats_set_spec.2 ["classic", "gen9randombattle", "bogus"]
     ["gen9randombattle", "classic", "bogus"]
     (List.Perm.swap "gen9randombattle" "classic" ["bogus"])⟩

/-! ## Loading and refresh policy: `_load_format`, `_check_updates`, `update` -/

/-- `RandBatsData._load_format`.  A filesystem directory is modelled as an
association list from format name to the parse outcome of its JSON file:
`some (some d)` — file present and parses to `d`; `some none` — file present
but fails to parse (in the source, `json.load` raises and control lands in the
`except` handler, which stores the empty dict); `none` — file absent.  The
returned flag mirrors that every path adds the format to `_loaded_formats`. -/
def load_format {ρ : Type} (cacheFS bundledFS : List (String × Option (Dataset ρ)))
    (fmt : String) : Dataset ρ × Bool :=
  match lookupAssoc cacheFS fmt with
  | some (some d) => (d, true)
  | some none => ([], true)
  | none =>
    match lookupAssoc bundledFS fmt with
    | some (some d) => (d, true)
    | some none => ([], true)
    | none => ([], true)

/-- C5 counterexample: with a corrupt cache file for the format and a bundled
snapshot that parses to a populated dataset, `_load_format` materializes the
empty dataset — the bundled snapshot is never consulted, contradicting the
claimed cache-then-bundled-then-empty fallback chain on parse failure. -/
theorem load_format_corrupt_skips_bundled :
    load_format [("gen9randombattle", (none : Option (Dataset Nat)))]
        [("gen9randombattle", some [(ascii "pikachu", 1)])] "gen9randombattle" =
      ([], true) ∧
      ([] : Dataset Nat) ≠ [(ascii "pikachu", 1)] := by
  refine ⟨by decide, by decide⟩

/-- C5 (amended): for every format whose cached file exists but fails to
parse, loading treats the failure as a caught exception and the format still
ends up loaded, with the empty dataset — the parse failure is never propagated
to the caller, and the bundled snapshot is not consulted. -/
theorem load_format_corrupt_loads_empty {ρ : Type}
    (cacheFS bundledFS : List (String × Option (Dataset ρ))) (fmt : String)
    (h : lookupAssoc cacheFS fmt = some none) :
    load_format cacheFS bundledFS fmt = ([], true) := by
  simp only [load_format, h]

/-- C5 witness: a corrupt cache file next to a populated bundled snapshot. -/
theorem load_format_corrupt_loads_empty_witness :
    load_format [("gen9randombattle", (none : Option (Dataset Nat)))]
        [("gen9randombattle", some [(ascii "pikachu", 1)])] "gen9randombattle" =
      ([], true) :=
  load_format_corrupt_loads_empty
    [("gen9randombattle", (none : Option (Dataset Nat)))]
    [("gen9randombattle", some [(ascii "pikachu", 1)])] "gen9randombattle"
    (by decide)

/-- `formats_to_update = formats or list(self._loaded_formats)` in
`RandBatsData.update`: Python `or` falls through on `None` and on the empty
list alike. -/
def formatsToUpdate {ρ : Type} (st : RandBatsState ρ)
    (fmts : Option (List String)) : List String :=
  match fmts with
  | some l => if l.isEmpty then st.loadedFormats else l
  | none => st.loadedFormats

/-- The observable outcome of one `RandBatsData.update` call: which formats
were handed to the updater, which came back as updated, and which were
reloaded into memory. -/
structure UpdateOutcome where
  requested : List String
  updated : List String
  reloaded : List String
deriving DecidableEq

/-- `RandBatsData.update`.  The sync engine itself (`DataUpdater.update_formats`,
whose module is not part of the sources) is an opaque oracle mapping the
requested formats to the formats actually updated; `update` then reloads each
updated format that is currently in `_loaded_formats`. -/
def update {ρ : Type} (updateFormats : List String → List String)
    (st : RandBatsState ρ) (fmts : Option (List String)) : UpdateOutcome :=
  let toUp := formatsToUpdate st fmts
  let upd := updateFormats toUp
  { requested := toUp
    updated := upd
    reloaded := upd.filter (fun f => st.loadedFormats.contains f) }

/-- `RandBatsData.update_all`: delegates to `update` with the full `FORMATS`
catalog, regardless of the configured formats. -/
def update_all {ρ : Type} (updateFormats : List String → List String)
    (st : RandBatsState ρ) : UpdateOutcome :=
  update updateFormats st (some FORMATS)

/-- `RandBatsData._check_updates`.  The `last_update` file is modelled as
`none` (absent), `some none` (present but not ISO-parseable: the exception is
caught and no update runs), or `some (some t)` (parsed timestamp, in seconds).
Returns `none` when no refresh is attempted, and the outcome of the
`update_all` call otherwise. -/
def check_updates {ρ : Type} (updateFormats : List String → List String)
    (st : RandBatsState ρ) (lastUpdateFile : Option (Option Int)) (now : Int) :
    Option UpdateOutcome :=
  match lastUpdateFile with
  | some (some t) =>
    if now - t < 24 * 60 * 60 then none else some (update_all updateFormats st)
  | some none => none
  | none => some (update_all updateFormats st)

/-- C6 counterexample: an instance configured with the single format
gen1randombattle and a stale (absent) timestamp hands the updater the whole
`FORMATS` catalog, not the configured formats; and with an updater reporting
gen9randombattle as updated, nothing is reloaded (the updated format is not
loaded), so the reloaded set is not the updated set either. -/
theorem check_updates_refreshes_all_formats :
    check_updates (fun _ => ["gen9randombattle"])
        (RandBatsState.mk ["gen1randombattle"]
          [("gen1randombattle", ([] : Dataset Nat))] ["gen1randombattle"])
        none 0 =
      some (UpdateOutcome.mk FORMATS ["gen9randombattle"] []) ∧
      FORMATS ≠ ["gen1randombattle"] ∧
      (["gen9randombattle"] : List String) ≠ [] := by
  refine ⟨by decide, by decide, by decide⟩

/-- C6 (amended): on construction with auto-refresh enabled, if the recorded
last-refresh timestamp is absent or at least 24 hours old, the cache invokes a
refresh over the full format catalog `FORMATS` (not merely the configured
formats) and then reloads exactly those updated formats that are currently
loaded; if the timestamp is younger than 24 hours, no refresh is attempted. -/
theorem check_updates_staleness_policy {ρ : Type}
    (updateFormats : List String → List String) (st : RandBatsState ρ)
    (t now : Int) :
    check_updates updateFormats st none now = some (update_all updateFormats st) ∧
      (now - t < 24 * 60 * 60 →
        check_updates updateFormats st (some (some t)) now = none) ∧
      (¬ now - t < 24 * 60 * 60 →
        check_updates updateFormats st (some (some t)) now =
          some (update_all updateFormats st)) ∧
      (update_all updateFormats st).requested = FORMATS ∧
      (update_all updateFormats st).reloaded =
        (updateFormats FORMATS).filter (fun f => st.loadedFormats.contains f) := by
  refine ⟨rfl, fun h => ?_, fun h => ?_, ?_, ?_⟩
  · simp only [check_updates, if_pos h]
  · simp only [check_updates, if_neg h]
  · simp [update_all, update, formatsToUpdate, FORMATS]
  · simp [update_all, update, formatsToUpdate, FORMATS]

/-- C6 witness: a fresh timestamp suppresses the refresh; an absent one
triggers it over the whole catalog. -/
theorem check_updates_staleness_policy_witness :
    check_updates (fun l => l)
        (RandBatsState.mk ["gen1randombattle"]
          [("gen1randombattle", ([] : Dataset Nat))] ["gen1randombattle"])
        (some (some 0)) 3600 = none ∧
      check_updates (fun l => l)
        (RandBatsState.mk ["gen1randombattle"]
          [("gen1randombattle", ([] : Dataset Nat))] ["gen1randombattle"])
        none 3600 =
        some (update_all (fun l => l)
          (RandBatsState.mk ["gen1randombattle"]
            [("gen1randombattle", ([] : Dataset Nat))] ["gen1randombattle"])) := by
  have h := check_updates_staleness_policy (fun l => l)
    (RandBatsState.mk ["gen1randombattle"]
      [("gen1randombattle", ([] : Dataset Nat))] ["gen1randombattle"])
    0 3600
  exact ⟨h.2.1 (by decide), h.1⟩

/-! ## The refresh script: `download_randbats` in `scripts/update_all_data.py` -/

/-- A creature record as the script sees it: an opaque attribute bag plus the
one field the script manipulates, the optional `stats` sub-record attached
from the secondary fetch (assigning it overwrites any prior value). -/
structure SRec (α σ : Type) where
  attrs : α
  stats : Option σ
deriving DecidableEq

/-- A per-format dataset in the script: creature key to record. -/
abbrev SDataset (α σ : Type) := List (PyStr × SRec α σ)

/-- The stats-merge loop of `download_randbats`: for every entry of the
statistics document, if its creature key is present in the primary dataset,
set that record's `stats` field; entries whose key is absent are discarded. -/
def merge_stats {α σ : Type} [DecidableEq α] [DecidableEq σ]
    (setData : SDataset α σ) (statsData : List (PyStr × σ)) : SDataset α σ :=
  statsData.foldl (fun acc ps =>
    if (lookupAssoc acc ps.1).isSome then
      acc.map (fun kv =>
        if kv.1 = ps.1 then (kv.1, SRec.mk kv.2.attrs (some ps.2)) else kv)
    else acc) setData

/-- `load_existing_data` from the script: parse the existing file if present,
returning the empty dataset when the file is absent or fails to parse. -/
def load_existing_data {φ α σ : Type} (parse : φ → Option (SDataset α σ))
    (file : Option φ) : SDataset α σ :=
  match file with
  | some raw => (parse raw).getD []
  | none => []

/-- What one format's pass of `download_randbats` leaves behind: the resulting
data file content (raw bytes, type `φ`) and whether the download succeeded.
The success flag stands for membership in the refresh summary's updated set;
the summary itself lives in `DataUpdater.update_formats`, whose module is not
part of the sources, and per the spec a failed format is excluded from it. -/
structure DownloadOutcome (φ : Type) where
  file : Option φ
  updated : Bool
deriving DecidableEq

/-- One format's pass of `download_randbats`, over abstract raw file contents
`φ` with explicit `parse`/`dump` functions.  `remotePrimary`/`remoteStats` are
the fetched bodies (`none` = network failure or non-200 status).  On a fetched
and parseable primary dataset: best-effort stats merge, then a full overwrite
of the data file.  On any primary failure (fetch or parse): if the existing
file was absent, unparseable or parsed to the empty dataset, the script writes
a fresh empty-dataset file (`dumpEmpty`); otherwise the file is untouched.
Metadata fetching touches neither the data file nor the success flag and is
omitted. -/
def download_format_step {φ α σ : Type} [DecidableEq α] [DecidableEq σ]
    (parse : φ → Option (SDataset α σ))
    (parseStats : φ → Option (List (PyStr × σ)))
    (dump : SDataset α σ → φ) (dumpEmpty : φ)
    (remotePrimary remoteStats file : Option φ) : DownloadOutcome φ :=
  let existing := load_existing_data parse file
  match remotePrimary.bind parse with
  | some setData =>
    let merged :=
      match remoteStats.bind parseStats with
      | some statsData => merge_stats setData statsData
      | none => setData
    DownloadOutcome.mk (some (dump merged)) true
  | none =>
    if existing.isEmpty then DownloadOutcome.mk (some dumpEmpty) false
    else DownloadOutcome.mk file false

/-- C1 counterexample: a persisted data file whose content does not parse
("CORRUPT") together with a failed primary fetch.  `load_existing_data` turns
the unparseable content into the empty dataset, the script's failure path sees
no existing data, and it overwrites the file with a fresh empty-dataset file —
the previously persisted bytes are not left unchanged, and a write happens
without any successful fetch. -/
theorem download_failure_overwrites_unparseable :
    download_format_step
        (fun s => if s = "EMPTYOBJ" then some ([] : SDataset Nat Nat) else none)
        (fun _ => (none : Option (List (PyStr × Nat))))
        (fun _ => "DUMPED") "EMPTYOBJ"
        none none (some "CORRUPT") =
      DownloadOutcome.mk (some "EMPTYOBJ") false ∧
      (some "EMPTYOBJ" : Option String) ≠ some "CORRUPT" := by
  refine ⟨by decide, by decide⟩

/-- C1 (amended): if the primary fetch for a format fails (network failure or
unparseable body) and the previously persisted file parses to a non-empty
dataset, the file is left byte-for-byte unchanged, the format is excluded from
the updated set, and a subsequent load of the file yields exactly the
pre-refresh dataset.  (When the persisted file is absent, unparseable, or
parses to the empty dataset, the failure path instead writes a fresh
empty-dataset file; the format is still excluded from the updated set.) -/
theorem download_failure_preserves_data {φ α σ : Type}
    [DecidableEq α] [DecidableEq σ]
    (parse : φ → Option (SDataset α σ))
    (parseStats : φ → Option (List (PyStr × σ)))
    (dump : SDataset α σ → φ) (dumpEmpty : φ)
    (remotePrimary remoteStats : Option φ) (raw : φ) (d : SDataset α σ)
    (hparse : parse raw = some d) (hne : d ≠ [])
    (hfail : remotePrimary.bind parse = none) :
    download_format_step parse parseStats dump dumpEmpty
        remotePrimary remoteStats (some raw) =
      DownloadOutcome.mk (some raw) false ∧
      load_existing_data parse
        (download_format_step parse parseStats dump dumpEmpty
          remotePrimary remoteStats (some raw)).file = d := by
  have hstep : download_format_step parse parseStats dump dumpEmpty
      remotePrimary remoteStats (some raw) = DownloadOutcome.mk (some raw) false := by
    simp only [download_format_step, hfail, load_existing_data, hparse,
      Option.getD_some]
    rw [if_neg (by simpa using hne)]
  exact ⟨hstep, by rw [hstep]; simp [load_existing_data, hparse]⟩

/-- C1 witness: a populated persisted file survives a failed fetch. -/
theorem download_failure_preserves_data_witness :
    download_format_step
        (fun s => if s = "GOOD" then some [(ascii "pikachu", SRec.mk 1 (none : Option Nat))] else none)
        (fun _ => (none : Option (List (PyStr × Nat))))
        (fun _ => "DUMPED") "EMPTYOBJ"
        none none (some "GOOD") =
      DownloadOutcome.mk (some "GOOD") false :=
  (download_failure_preserves_data
    (fun s => if s = "GOOD" then some [(ascii "pikachu", SRec.mk 1 (none : Option Nat))] else none)
    (fun _ => (none : Option (List (PyStr × Nat))))
    (fun _ => "DUMPED") "EMPTYOBJ" none none "GOOD"
    [(ascii "pikachu", SRec.mk 1 (none : Option Nat))]
    (by decide) (by decide) rfl).1

/-- C4: for a primary dataset with records for keys A and B and a statistics
document with entries for keys A and C (all distinct), the merge attaches the
statistics sub-record under the `stats` field on A's record only, leaves B's
record unchanged, and C does not appear in the merged dataset. -/
lemma lookupAssoc_nil {α β : Type} [DecidableEq α] (q : α) :
    lookupAssoc ([] : List (α × β)) q = none := rfl

lemma lookupAssoc_cons {α β : Type} [DecidableEq α] (k : α) (v : β)
    (l : List (α × β)) (q : α) :
    lookupAssoc ((k, v) :: l) q = if k = q then some v else lookupAssoc l q := by
  simp only [lookupAssoc, List.find?_cons]
  by_cases h : k = q <;> simp [h]

theorem merge_stats_exact {α σ : Type} [DecidableEq α] [DecidableEq σ]
    (A B C : PyStr) (ra rb : SRec α σ) (sa sc : σ)
    (hAB : A ≠ B) (hAC : A ≠ C) (hBC : B ≠ C) :
    merge_stats [(A, ra), (B, rb)] [(A, sa), (C, sc)] =
      [(A, SRec.mk ra.attrs (some sa)), (B, rb)] := by
  have h1 : lookupAssoc [(A, ra), (B, rb)] A = some ra := by
    rw [lookupAssoc_cons, if_pos rfl]
  have h2 : lookupAssoc [(A, SRec.mk ra.attrs (some sa)), (B, rb)] C = none := by
    rw [lookupAssoc_cons, if_neg hAC, lookupAssoc_cons, if_neg hBC, lookupAssoc_nil]
  simp only [merge_stats, List.foldl_cons, List.foldl_nil, h1,
    Option.isSome_some, if_true, List.map_cons, List.map_nil, if_pos rfl,
    if_neg (Ne.symm hAB)]
  simp only [h2, Option.isSome_none, Bool.false_eq_true, if_false]

/-- C4 witness: concrete records and statistics entries. -/
theorem merge_stats_exact_witness :
    merge_stats [(ascii "abra", SRec.mk 10 (none : Option Nat)),
        (ascii "beedrill", SRec.mk 20 (none : Option Nat))]
      [(ascii "abra", 5), (ascii "caterpie", 6)] =
      [(ascii "abra", SRec.mk 10 (some 5)), (ascii "beedrill", SRec.mk 20 none)] :=
  merge_stats_exact (ascii "abra") (ascii "beedrill") (ascii "caterpie")
    (SRec.mk 10 none) (SRec.mk 20 none) 5 6
    (by decide) (by decide) (by decide)
